import Mathlib

/-!
# Verification of the llm-trade-experiment decision pipeline

Shallow embedding of the quantitative core of the repository:

* `src/bot/trading_bot.py` — regime adjustment of decisions
  (`_adjust_for_regime`), position rescaling (`_adjust_position_for_regime`)
  and position sizing (`_calculate_position_size`);
* `src/analysis/order_flow.py` — the L1 order-flow summarizer
  (`OrderFlowAnalyzer._analyze_level1_footprint`);
* `src/llm/deepseek_provider.py` — response validation in
  `DeepSeekProvider.get_trading_decision`.

Python floats are modelled as exact rationals (`ℚ`); a pandas/numpy NaN cell
is modelled as `Option.none`; comparisons against NaN are `false`, as in
numpy.  Loosely-typed decision dicts are modelled as records of `Option ℚ`
fields, `dict.get(k, 0)` becoming `Option.getD · 0`.  The `MarketRegime`
enumeration lives in `src/analysis/market_regime.py`, which is not part of
the sources; its members are modelled from the spec (see `MarketRegime`).
-/

namespace LTE

/-! ## Market regime model (trading_bot.py) -/

/-- Modelled from the spec: `market_regime.py` (the `MarketRegime` enum) is
not among the sources.  The spec's §3 lists the regime members
(trending-up/down, momentum, breakout, ranging-low/high-vol, reversal,
accumulation, distribution, exhaustion); `other` stands for any further
member absent from the bot's per-regime factor tables, which the source
handles through `dict.get(regime, default)`. -/
inductive MarketRegime where
  | trending_up
  | trending_down
  | momentum
  | breakout
  | ranging_low_vol
  | ranging_high_vol
  | reversal
  | accumulation
  | distribution
  | exhaustion
  | other
deriving DecidableEq

/-- The `regime_info` dict produced by the regime detector: a regime, a
confidence scalar and a `details` map with `trend_direction`. -/
structure RegimeInfo where
  regime : MarketRegime
  confidence : ℚ
  trend_direction : ℤ

/-- A trading-decision dict inside the bot pipeline.  Fields are optional,
matching the source's use of `decision.get(key, 0)`.  The free-text
`reasoning` entry is not modelled (no claim mentions it). -/
structure BotDecision where
  position : Option ℚ
  confidence : Option ℚ
  current_price : Option ℚ
  take_profit : Option ℚ
  stop_loss : Option ℚ

/-- `TradingBot._adjust_for_regime` (trading_bot.py lines 36-105), minus the
`reasoning` prefix line.  Branches exactly as the source: ranging regimes
shrink the position (and in high vol tighten the stop), trending regimes
scale confidence by alignment, breakout/reversal regimes scale confidence by
`details['trend_direction']` alignment. -/
def adjust_for_regime (decision : BotDecision) (regime_info : RegimeInfo) : BotDecision :=
  let regime := regime_info.regime
  let regime_conf := regime_info.confidence
  let position := decision.position.getD 0
  let confidence := decision.confidence.getD 0
  if regime = .ranging_low_vol ∨ regime = .ranging_high_vol then
    let d1 := { decision with position := some (position * 0.7) }
    if regime = .ranging_high_vol then
      let current_price := d1.current_price.getD 0
      let new_sl :=
        if 0 < position then
          max (d1.stop_loss.getD 0)
            (current_price - (current_price - d1.stop_loss.getD 0) * 0.7)
        else
          min (d1.stop_loss.getD 0)
            (current_price + (d1.stop_loss.getD 0 - current_price) * 0.7)
      { d1 with stop_loss := some new_sl }
    else d1
  else if regime = .trending_up ∨ regime = .trending_down then
    if (regime = .trending_up ∧ 0 < position) ∨ (regime = .trending_down ∧ position < 0) then
      { decision with confidence := some (min 1.0 (confidence * (1 + regime_conf * 0.3))) }
    else
      { decision with confidence := some (confidence * 0.5) }
  else if regime = .breakout then
    if (0 < regime_info.trend_direction ∧ 0 < position) ∨
        (regime_info.trend_direction < 0 ∧ position < 0) then
      { decision with confidence := some (min 1.0 (confidence * (1 + regime_conf * 0.5))) }
    else decision
  else if regime = .reversal then
    if (regime_info.trend_direction < 0 ∧ 0 < position) ∨
        (0 < regime_info.trend_direction ∧ position < 0) then
      { decision with confidence := some (min 1.0 (confidence * (1 + regime_conf * 0.4))) }
    else decision
  else decision

/-- The `regime_factors` table of `_adjust_position_for_regime`
(trading_bot.py lines 157-168) together with the `.get(regime, 0.5)`
default. -/
def regime_factors : MarketRegime → ℚ
  | .trending_up => 1.0
  | .trending_down => 1.0
  | .momentum => 1.2
  | .breakout => 1.1
  | .ranging_low_vol => 0.8
  | .ranging_high_vol => 0.6
  | .reversal => 0.7
  | .accumulation => 0.9
  | .distribution => 0.7
  | .exhaustion => 0.5
  | .other => 0.5

/-- `TradingBot._adjust_position_for_regime` (trading_bot.py lines 151-180):
base regime factor, multiplied by the regime confidence and the decision
confidence, clamped to `[-1.0, 1.0]`. -/
def adjust_position_for_regime (position confidence : ℚ) (regime_info : RegimeInfo) : ℚ :=
  let regime_factor := regime_factors regime_info.regime * regime_info.confidence
  let adjusted_position := position * regime_factor * confidence
  max (min adjusted_position 1.0) (-1.0)

/-! ## Position sizer (trading_bot.py `_calculate_position_size`) -/

/-- The bot's sizing configuration (constructor defaults of `TradingBot`). -/
structure BotConfig where
  max_position_size : ℚ
  min_confidence : ℚ
  min_risk_reward : ℚ

/-- `TradingBot.__init__` defaults: `max_position_size=1.0`,
`min_confidence=0.6`, `min_risk_reward=1.5`. -/
def defaultBotConfig : BotConfig := ⟨1.0, 0.6, 1.5⟩

/-- Python's `round(x, 2)`: round to the nearest hundredth, ties to even
(on the exact rational value). -/
def round2 (x : ℚ) : ℚ :=
  let y := x * 100
  let f : ℤ := Int.floor y
  let r := y - f
  let n : ℤ :=
    if 1 / 2 < r then f + 1
    else if r < 1 / 2 then f
    else if f % 2 = 0 then f else f + 1
  (n : ℚ) / 100

/-- The signed risk/reward of `_calculate_position_size` (lines 128-138),
computed unconditionally: `(reward distance)/(risk distance)` with the
long/short branch taken on the decision's position sign. -/
def risk_reward_of (decision : BotDecision) : ℚ :=
  let current_price := decision.current_price.getD 0
  let take_profit := decision.take_profit.getD 0
  let stop_loss := decision.stop_loss.getD 0
  if 0 < decision.position.getD 0 then
    (take_profit - current_price) / (current_price - stop_loss)
  else
    (current_price - take_profit) / (stop_loss - current_price)

/-- `TradingBot._calculate_position_size` (trading_bot.py lines 107-149).
Gates in source order: position dead-zone / minimum confidence, the
`all([...])` falsiness test on the three price fields, non-positive risk
distance, minimum risk/reward; then size scaled by confidence and
risk/reward and rounded to 2 decimals. -/
def calculate_position_size (cfg : BotConfig) (decision : BotDecision) : ℚ :=
  if |decision.position.getD 0| < 0.1 ∨ decision.confidence.getD 0 < cfg.min_confidence then 0
  else
    let current_price := decision.current_price.getD 0
    let take_profit := decision.take_profit.getD 0
    let stop_loss := decision.stop_loss.getD 0
    if current_price = 0 ∨ take_profit = 0 ∨ stop_loss = 0 then 0
    else
      let pp_pl : ℚ × ℚ :=
        if 0 < decision.position.getD 0 then
          (take_profit - current_price, current_price - stop_loss)
        else
          (current_price - take_profit, stop_loss - current_price)
      if pp_pl.2 ≤ 0 then 0
      else
        let risk_reward := pp_pl.1 / pp_pl.2
        if risk_reward < cfg.min_risk_reward then 0
        else
          let confidence_factor := min 1.0 (decision.confidence.getD 0)
          let risk_reward_factor := min 1.0 (risk_reward / (2 * cfg.min_risk_reward))
          round2 (cfg.max_position_size * confidence_factor * risk_reward_factor)

/-! ## Order-flow summarizer, per-bar expressions (order_flow.py) -/

/-- Mean of a list of rationals (`Series.mean`). -/
def meanQ (l : List ℚ) : ℚ := l.sum / l.length

/-- Sample variance with `ddof=1` (the square of pandas' `Series.std`). -/
def sampleVar (l : List ℚ) : ℚ :=
  (l.map fun x => (x - meanQ l) ^ 2).sum / ((l.length : ℚ) - 1)

/-- `Series.rolling(w)` window ending at index `i`: the trailing `w`
observations when at least `w` exist, otherwise undefined (NaN). -/
def rollingWindow (w : ℕ) (l : List ℚ) (i : ℕ) : Option (List ℚ) :=
  if w ≤ i + 1 then some ((l.take (i + 1)).drop (i + 1 - w)) else none

/-- The adaptive institutional-volume test of order_flow.py lines 46-49:
`volume > vol_mean + (2 + vol_std/vol_mean) * vol_std`, with `m` the rolling
mean and `V` the rolling sample variance (so `vol_std = √V`).  Stated
without square roots: for `m > 0` the inequality
`v > m + 2·√V + V/m` is equivalent to
`0 < m·(v − m) − V ∧ (m·(v − m) − V)² > 4·m²·V`
(see `instCond_iff_sqrt` below); `m ≤ 0` only happens for an all-zero
window, where the source's `vol_std/vol_mean` is NaN and the comparison is
false. -/
def instCond (m V v : ℚ) : Bool :=
  decide (0 < m ∧ 0 < m * (v - m) - V ∧ 4 * m ^ 2 * V < (m * (v - m) - V) ^ 2)

/-- `df['institutional_volume']` at one index: false while the rolling
statistics are NaN (fewer than 20 bars), else the adaptive threshold test. -/
def instFlag (vol : List ℚ) (i : ℕ) : Bool :=
  match rollingWindow 20 vol i with
  | none => false
  | some w => instCond (meanQ w) (sampleVar w) (vol.getD i 0)

def instFlagsAux (vol : List ℚ) : ℕ → List ℚ → List Bool
  | _, [] => []
  | i, _ :: rest => instFlag vol i :: instFlagsAux vol (i + 1) rest

/-- The whole `df['institutional_volume']` column (order_flow.py line 49). -/
def institutional_volume (vol : List ℚ) : List Bool := instFlagsAux vol 0 vol

/-- One bar of the `recent` slice together with its institutional flag. -/
structure FlowRow where
  open_ : ℚ
  close : ℚ
  volume : ℚ
  inst : Bool

def flowRows : List ℚ → List ℚ → List ℚ → List Bool → List FlowRow
  | o :: os, c :: cs, v :: vs, b :: bs => ⟨o, c, v, b⟩ :: flowRows os cs vs bs
  | _, _, _, _ => []

/-- `df.tail(20)`. -/
def recent20 {α : Type} (l : List α) : List α := l.drop (l.length - 20)

/-- The `recent = df.tail(20)` rows used by the summarizer (line 114). -/
def flowRecent (op cl vol : List ℚ) : List FlowRow :=
  recent20 (flowRows op cl vol (institutional_volume vol))

/-- `bullish_volume` (order_flow.py line 118): summed volume of recent
institutional bars that closed above their open. -/
def bullish_volume (op cl vol : List ℚ) : ℚ :=
  (((flowRecent op cl vol).filter fun r => r.inst && decide (r.open_ < r.close)).map
    FlowRow.volume).sum

/-- `bearish_volume` (order_flow.py line 119): summed volume of recent
institutional bars that closed below their open. -/
def bearish_volume (op cl vol : List ℚ) : ℚ :=
  (((flowRecent op cl vol).filter fun r => r.inst && decide (r.close < r.open_)).map
    FlowRow.volume).sum

/-- `institutional_bias` (order_flow.py line 131):
`"bullish" if bullish_volume > bearish_volume else "bearish"`. -/
def institutional_bias (op cl vol : List ℚ) : String :=
  if bearish_volume op cl vol < bullish_volume op cl vol then "bullish" else "bearish"

/-- `bias_strength` (order_flow.py line 132):
`abs(bullish - bearish) / (bullish + bearish)`; a zero denominator is
numpy's `0.0/0.0 = NaN`, modelled as `none`. -/
def bias_strength (op cl vol : List ℚ) : Option ℚ :=
  let b := bullish_volume op cl vol
  let s := bearish_volume op cl vol
  if b + s = 0 then none else some (|b - s| / (b + s))

/-- `df['weighted_delta']` for one bar (order_flow.py lines 68-72):
`np.where(close > open, volume*(1+|Δ/open|), -volume*(1+|Δ/open|))`. -/
def weighted_delta (op cl vol : ℚ) : ℚ :=
  if op < cl then vol * (1 + |(cl - op) / op|)
  else -(vol * (1 + |(cl - op) / op|))

/-! ## The analyzer as a DataFrame transform (for the mutation claims)

A pandas DataFrame is modelled as an association list of named columns plus
an (immutable) index, a cell being `Option ℚ` (`none` = NaN, booleans as
0/1 indicators).  `_analyze_level1_footprint` mutates its argument in place
through `df[name] = ...` assignments; the embedding returns the frame as
mutated up to the point where the call returns or raises, together with
the summary — `none` when the function raises.  On real candle inputs
there are two raise points: `pd.qcut(df['typical_price'], q=10)` at line
60 raises ValueError ("Bin edges must be unique") when two decile bin
edges coincide, after only the first four column assignments; and the
stealth-mode comparison `recent['volume'] > vol_mean * 1.2` at line 126
raises ValueError ("Can only compare identically-labeled Series objects",
pandas >= 2.2 as pinned by setup.py) whenever the frame is longer than 20
rows, since `recent` carries only the last 20 index labels.  Python's
in-place assignments survive the raise, so the caller's frame keeps the
columns assigned before the failing line. -/

abbrev Cell := Option ℚ
abbrev Col := List Cell

structure Frame where
  cols : List (String × Col)
  idx_hours : List ℕ

def Frame.names (f : Frame) : List String := f.cols.map Prod.fst

def Frame.lookup (f : Frame) (n : String) : Option Col :=
  match f.cols.find? (fun p => p.1 == n) with
  | some p => some p.2
  | none => none

/-- `df[name] = col`: overwrite the column when present, append it
otherwise. -/
def Frame.set (f : Frame) (n : String) (v : Col) : Frame :=
  if (f.cols.find? (fun p => p.1 == n)).isSome then
    { f with cols := f.cols.map fun p => if p.1 == n then (n, v) else p }
  else { f with cols := f.cols ++ [(n, v)] }

/-- A caller-owned OHLCV frame, as produced by the market-data layer. -/
def Frame.ofOHLCV (op hi lo cl vol : List ℚ) (hours : List ℕ) : Frame :=
  ⟨[("open", op.map some), ("high", hi.map some), ("low", lo.map some),
    ("close", cl.map some), ("volume", vol.map some)], hours⟩

def allSome : Col → Option (List ℚ)
  | [] => some []
  | some q :: rest => (allSome rest).map (q :: ·)
  | none :: _ => none

/-- Read a raw column as floats (real candle data has no NaN cells). -/
def Frame.getColQ (f : Frame) (n : String) : Option (List ℚ) :=
  (f.lookup n).bind allSome

def boolCell (b : Bool) : Cell := some (if b then 1 else 0)

def rollingApplyAux (g : List ℚ → ℚ) (w : ℕ) (l : List ℚ) : ℕ → List ℚ → List Cell
  | _, [] => []
  | i, _ :: rest => (rollingWindow w l i).map g :: rollingApplyAux g w l (i + 1) rest

/-- `Series.rolling(w).agg(g)` as a column (NaN during warm-up). -/
def rollingApply (g : List ℚ → ℚ) (w : ℕ) (l : List ℚ) : List Cell :=
  rollingApplyAux g w l 0 l

def zipWith3 {α β γ δ : Type} (f : α → β → γ → δ) :
    List α → List β → List γ → List δ
  | a :: as, b :: bs, c :: cs => f a b c :: zipWith3 f as bs cs
  | _, _, _ => []

def zipWith4 {α β γ δ ε : Type} (f : α → β → γ → δ → ε) :
    List α → List β → List γ → List δ → List ε
  | a :: as, b :: bs, c :: cs, d :: ds => f a b c d :: zipWith4 f as bs cs ds
  | _, _, _, _ => []

def zipWith5 {α β γ δ ε ζ : Type} (f : α → β → γ → δ → ε → ζ) :
    List α → List β → List γ → List δ → List ε → List ζ
  | a :: as, b :: bs, c :: cs, d :: ds, e :: es => f a b c d e :: zipWith5 f as bs cs ds es
  | _, _, _, _, _ => []

/-- The summary dict of `_analyze_level1_footprint` (order_flow.py lines
130-155), restricted to the fields some claim mentions plus the cheap
scalars.  `smart_money_ratio`, `delta_trend` and `volume_profile` are not
referenced by any claim and are left out of the record. -/
structure Verdict where
  institutional_bias : String
  bias_strength : Option ℚ
  climax_volume : Bool
  stealth_mode : Bool
  accumulation : Bool
  large_player_activity : ℚ
  price_rejection_up : Bool
  price_rejection_down : Bool

/-- `df['body']` (order_flow.py line 77). -/
def body_of (op cl : List ℚ) : List ℚ := List.zipWith (fun c o => |c - o|) cl op

/-- `df['upper_wick']` (order_flow.py line 78). -/
def upper_wick_of (op hi cl : List ℚ) : List ℚ :=
  zipWith3 (fun h o c => h - max o c) hi op cl

/-- `df['lower_wick']` (order_flow.py line 79). -/
def lower_wick_of (op lo cl : List ℚ) : List ℚ :=
  zipWith3 (fun l o c => min o c - l) lo op cl

/-- The `volume > vol_mean * 1.2` comparison column used both by the
distribution/accumulation flags (lines 100, 107) and by the stealth-mode
count (line 126); NaN rolling means compare false. -/
def vol_gt12_of (vol : List ℚ) : List Bool :=
  List.zipWith
    (fun v m => match m with
      | none => false
      | some mv => decide (mv * 1.2 < v))
    vol (rollingApply meanQ 20 vol)

/-- `df['distribution']` (order_flow.py lines 99-104). -/
def distribution_of (op hi cl vol : List ℚ) : List Bool :=
  zipWith4 (fun a b c d => a && b && c && d)
    (vol_gt12_of vol)
    (List.zipWith
      (fun h ph => match ph with
        | none => false
        | some p => decide (h < p))
      hi ((none : Cell) :: hi.map some))
    (List.zipWith (fun c o => decide (c < o)) cl op)
    (List.zipWith (fun u b => decide (b < u)) (upper_wick_of op hi cl) (body_of op cl))

/-- `df['accumulation']` (order_flow.py lines 106-111). -/
def accumulation_of (op lo cl vol : List ℚ) : List Bool :=
  zipWith4 (fun a b c d => a && b && c && d)
    (vol_gt12_of vol)
    (List.zipWith
      (fun l pl => match pl with
        | none => false
        | some p => decide (p < l))
      lo ((none : Cell) :: lo.map some))
    (List.zipWith (fun c o => decide (o < c)) cl op)
    (List.zipWith (fun l b => decide (b < l)) (lower_wick_of op lo cl) (body_of op cl))

/-- `df['typical_price']` (order_flow.py line 38). -/
def typical_price_of (hi lo cl : List ℚ) : List ℚ :=
  zipWith3 (fun h l c => (h + l + c) / 3) hi lo cl

def insertSorted (x : ℚ) : List ℚ → List ℚ
  | [] => [x]
  | y :: ys => if x ≤ y then x :: y :: ys else y :: insertSorted x ys

/-- Ascending sort (insertion sort), for the quantile computation. -/
def sortQ : List ℚ → List ℚ
  | [] => []
  | x :: xs => insertSorted x (sortQ xs)

/-- The k-th decile edge of a sorted value list, by linear interpolation
(numpy's default), as computed by `pd.qcut(values, q=10)`: position
`(n-1)·k/10` between order statistics. -/
def decileEdge (s : List ℚ) (k : ℕ) : ℚ :=
  let pos := (s.length - 1) * k
  let i := pos / 10
  let frac : ℚ := ((pos % 10 : ℕ) : ℚ) / 10
  s.getD i 0 + frac * (s.getD (i + 1) (s.getD i 0) - s.getD i 0)

def hasDupAdjacent : List ℚ → Bool
  | a :: b :: rest => decide (a = b) || hasDupAdjacent (b :: rest)
  | _ => false

/-- `pd.qcut(values, q=10)` (order_flow.py line 60) with the default
`duplicates='raise'` raises ValueError ("Bin edges must be unique") when
two of the 11 decile edges coincide; the edges are nondecreasing, so a
duplicate among them is a duplicate among adjacent ones. -/
def qcut_fails (values : List ℚ) : Bool :=
  hasDupAdjacent
    ([0, 1, 2, 3, 4, 5, 6, 7, 8, 9, 10].map (decileEdge (sortQ values)))

/-- The in-place `df[...] = ...` column assignments executed before the
volume-profile `pd.qcut` of line 60, in source order (order_flow.py lines
38, 39, 49, 53). -/
def analyze_columns_a (f : Frame) (hi lo cl vol : List ℚ) : Frame :=
  let typical_price := typical_price_of hi lo cl
  let money_flow := List.zipWith (· * ·) typical_price vol
  let inst := institutional_volume vol
  f.set "typical_price" (typical_price.map some)
    |>.set "money_flow" (money_flow.map some)
    |>.set "institutional_volume" (inst.map boolCell)
    |>.set "hour" (f.idx_hours.map fun h => some (h : ℚ))

/-- The in-place `df[...] = ...` column assignments after the
volume-profile block, in source order (order_flow.py lines 68, 73, 76,
77, 78, 79, 84, 90, 99, 106). -/
def analyze_columns_b (f : Frame) (op hi lo cl vol : List ℚ) : Frame :=
  let inst := institutional_volume vol
  let wdelta := zipWith3 weighted_delta op cl vol
  let cum_delta := rollingApply List.sum 20 wdelta
  let spread := List.zipWith (· - ·) hi lo
  let body := body_of op cl
  let upper_wick := upper_wick_of op hi cl
  let lower_wick := lower_wick_of op lo cl
  let avg_spread := rollingApply meanQ 20 spread
  let absorption := zipWith3
    (fun b s ms => b && match ms with
      | none => false
      | some m => decide (s < m * 0.7))
    inst spread avg_spread
  let stopping := zipWith5 (fun i bu be l15 u15 => i && ((bu && l15) || (be && u15)))
    inst
    (List.zipWith (fun c o => decide (o < c)) cl op)
    (List.zipWith (fun c o => decide (c < o)) cl op)
    (List.zipWith (fun l b => decide (b * 1.5 < l)) lower_wick body)
    (List.zipWith (fun u b => decide (b * 1.5 < u)) upper_wick body)
  f.set "weighted_delta" (wdelta.map some)
    |>.set "cum_delta" cum_delta
    |>.set "spread" (spread.map some)
    |>.set "body" (body.map some)
    |>.set "upper_wick" (upper_wick.map some)
    |>.set "lower_wick" (lower_wick.map some)
    |>.set "absorption" (absorption.map boolCell)
    |>.set "stopping_volume" (stopping.map boolCell)
    |>.set "distribution" ((distribution_of op hi cl vol).map boolCell)
    |>.set "accumulation" ((accumulation_of op lo cl vol).map boolCell)

/-- The `recent['volume'] > vol_mean * 1.2` comparison of line 126 on the
domain where it does not raise (frame of at most 20 rows, so `recent` is
the whole frame and the labels coincide). -/
def elevated_recent (vol : List ℚ) : List Bool :=
  List.zipWith
    (fun v m => match m with
      | none => false
      | some mv => decide (mv * 1.2 < v))
    (recent20 vol) (rollingApply meanQ 20 vol)

/-- The "recent analysis" and return dict of `_analyze_level1_footprint`
(order_flow.py lines 113-155).  `none` models the ValueError raised at
line 126: `recent['volume']` carries only the last 20 index labels while
`vol_mean * 1.2` is full-length, and pandas refuses to compare
differently-labeled Series — so the raise fires exactly when the frame is
longer than 20 rows.  When the labels coincide (at most 20 rows) the
rolling-20 mean is non-NaN at most at the last row, the elevated count is
at most 1, and `and` short-circuits, so the `recent['std']` read of a
column nothing ever creates (a KeyError if reached) is dead code; it is
kept here for faithfulness. -/
def analyze_verdict (op hi lo cl vol : List ℚ) (f1 : Frame) : Option Verdict :=
  let rv := recent20 vol
  let is_climax := decide (rv.foldr max 0 * 0.8 < rv.getLast?.getD 0)
  let stealth_opt : Option Bool :=
    if (recent20 vol).length ≠ vol.length then
      none  -- ValueError: differently-labeled Series (frame longer than 20 rows)
    else if 10 < (elevated_recent vol).count true then
      match (f1.lookup "std").bind allSome with
      | none => none  -- KeyError('std'): the column was never created
      | some stdv =>
        some (decide
          (|(recent20 cl).getLast?.getD 0 - (recent20 cl).head?.getD 0| <
            meanQ (recent20 stdv)))
    else some false  -- `and` short-circuits; `recent['std']` not evaluated
  stealth_opt.map fun st =>
    { institutional_bias := institutional_bias op cl vol
      bias_strength := bias_strength op cl vol
      climax_volume := is_climax
      stealth_mode := st
      accumulation :=
        (recent20 (distribution_of op hi cl vol)).count true <
          (recent20 (accumulation_of op lo cl vol)).count true
      large_player_activity :=
        ((recent20 (institutional_volume vol)).count true : ℚ) /
          ((recent20 (institutional_volume vol)).length : ℚ)
      price_rejection_up :=
        (recent20 (List.zipWith (fun u b => decide (b * 2 < u))
          (upper_wick_of op hi cl) (body_of op cl))).any id
      price_rejection_down :=
        (recent20 (List.zipWith (fun l b => decide (b * 2 < l))
          (lower_wick_of op lo cl) (body_of op cl))).any id }

/-- `OrderFlowAnalyzer._analyze_level1_footprint` (order_flow.py lines
35-155) as a transform of the caller's frame.  Execution in source order:
the first four column assignments (`analyze_columns_a`), then the
volume-profile `pd.qcut` — which raises ValueError on duplicate decile
edges, leaving the frame with only those four derived columns — then the
remaining ten assignments (`analyze_columns_b`) and the trailing-window
summary (`analyze_verdict`), itself `none` when line 126's
differently-labeled comparison raises.  Python's in-place assignments
survive a raise, so the mutated frame is returned in every case.  The
frame must expose the five raw OHLCV columns (every caller passes real
candle data). -/
def analyze_level1_footprint (f : Frame) : Frame × Option Verdict :=
  match f.getColQ "open", f.getColQ "high", f.getColQ "low",
      f.getColQ "close", f.getColQ "volume" with
  | some op, some hi, some lo, some cl, some vol =>
    let fa := analyze_columns_a f hi lo cl vol
    if qcut_fails (typical_price_of hi lo cl) then
      (fa, none)  -- ValueError at line 60: duplicate decile bin edges
    else
      let f1 := analyze_columns_b fa op hi lo cl vol
      (f1, analyze_verdict op hi lo cl vol f1)
  | _, _, _, _, _ => (f, none)

/-- The 14 derived columns the analyzer assigns, in assignment order. -/
def derivedNames : List String :=
  ["typical_price", "money_flow", "institutional_volume", "hour",
   "weighted_delta", "cum_delta", "spread", "body", "upper_wick",
   "lower_wick", "absorption", "stopping_volume", "distribution",
   "accumulation"]

/-- The four derived columns assigned before the `pd.qcut` of line 60 —
all the caller's frame gains when the decile binning raises. -/
def partialDerivedNames : List String :=
  ["typical_price", "money_flow", "institutional_volume", "hour"]

/-! ## Decision provider model (deepseek_provider.py) -/

/-- A parsed JSON value inside a model response. -/
inductive JVal where
  | num (q : ℚ)
  | str (s : String)
  | null
deriving DecidableEq

/-- The decision object decoded from the model's response text; `none`
fields are missing keys. -/
structure RawDecision where
  position : Option JVal
  confidence : Option JVal
  take_profit : Option JVal
  stop_loss : Option JVal
  reasoning : Option JVal
deriving DecidableEq

/-- The decision dict `get_trading_decision` hands back to the bot. -/
structure ProviderDecision where
  position : ℚ
  confidence : ℚ
  take_profit : Option ℚ
  stop_loss : Option ℚ
  reasoning : String
deriving DecidableEq

/-- Python `float(v)` on a JSON value: numbers convert, `None` and
(non-numeric) strings raise. -/
def JVal.asFloat : JVal → Option ℚ
  | num q => some q
  | str _ => none
  | null => none

def JVal.render : JVal → String
  | num q => toString q
  | str s => s
  | null => "None"

/-- The canned decision of dry-run mode (deepseek_provider.py lines
165-173). -/
def dryRunDecision : ProviderDecision :=
  ⟨0, 0, none, none, "Dry run mode - no API call made"⟩

/-- The neutral decision built by the broad `except Exception` handler
(deepseek_provider.py lines 270-278). -/
def errorDecision (e : String) : ProviderDecision :=
  ⟨0, 0, none, none, "Error getting trading decision: " ++ e⟩

/-- The validation chain of `get_trading_decision` (deepseek_provider.py
lines 232-263) on an already-JSON-decoded decision object: required keys,
position/confidence ranges, numeric take-profit/stop-loss, and consistency
of both levels with the position sign against the last 1-minute close.
Every `raise` becomes `Except.error`. -/
def validate_decision (raw : RawDecision) (current_price : ℚ) :
    Except String ProviderDecision :=
  match raw.position, raw.confidence, raw.take_profit, raw.stop_loss, raw.reasoning with
  | some pv, some cv, some tv, some sv, some rv =>
    match pv.asFloat with
    | none => .error "could not convert position to float"
    | some p =>
      if ¬(-1.0 ≤ p ∧ p ≤ 1.0) then .error "Position value out of range"
      else
        match cv.asFloat with
        | none => .error "could not convert confidence to float"
        | some c =>
          if ¬(0.0 ≤ c ∧ c ≤ 1.0) then .error "Confidence value out of range"
          else
            match tv.asFloat, sv.asFloat with
            | some t, some s =>
              if 0 < p ∧ t ≤ current_price then
                .error "take_profit must be above current price for long positions"
              else if 0 < p ∧ current_price ≤ s then
                .error "stop_loss must be below current price for long positions"
              else if p < 0 ∧ current_price ≤ t then
                .error "take_profit must be below current price for short positions"
              else if p < 0 ∧ s ≤ current_price then
                .error "stop_loss must be above current price for short positions"
              else .ok ⟨p, c, some t, some s, rv.render⟩
            | _, _ => .error "take_profit and stop_loss must be numeric values"
  | _, _, _, _, _ => .error "Missing required keys in decision"

/-- `DeepSeekProvider.get_trading_decision`, response-processing part: in
dry-run mode the canned decision is returned with no network call; outside
it the validated decision is returned, but any internal raise is swallowed
by the function's broad `except Exception` handler (lines 270-278), which
returns the neutral `errorDecision` instead of propagating. -/
def provider_get_trading_decision (dry_run : Bool) (raw : RawDecision)
    (current_price : ℚ) : ProviderDecision :=
  if dry_run then dryRunDecision
  else
    match validate_decision raw current_price with
    | .ok d => d
    | .error e => errorDecision e

/-! ## Concrete inputs used by the claims -/

/-- The spec §8 scenario: long decision, position 0.8, confidence 0.7,
current price 100, take-profit 110, stop-loss 95. -/
def d_c1 : BotDecision := ⟨some 0.8, some 0.7, some 100, some 110, some 95⟩

/-- Regime TRENDING_UP with confidence 0.8 and trend_direction 1. -/
def ri_c1 : RegimeInfo := ⟨.trending_up, 0.8, 1⟩

/-- A long decision whose risk/reward is exactly the default minimum:
position 0.5, confidence 0.6, price 100, take-profit 103, stop-loss 98
give risk/reward (103-100)/(100-98) = 3/2. -/
def d_c4 : BotDecision := ⟨some 0.5, some 0.6, some 100, some 103, some 98⟩

/-- A decision inside the dead-zone: |position| = 0.05 < 0.1. -/
def d_c4a : BotDecision := ⟨some (1/20), some 0.9, some 100, some 110, some 95⟩

/-- A long decision with risk/reward (102-100)/(100-98) = 1 < 1.5. -/
def d_c4b : BotDecision := ⟨some 0.5, some 0.9, some 100, some 102, some 98⟩

/-- Position and confidence pass their gates but take_profit is 0. -/
def d_c9 : BotDecision := ⟨some 0.5, some 0.9, some 100, some 0, some 95⟩

/-- 21 bars of volume 10, all at price 100 (every bar
open=high=low=close=100): a valid but flat series, on which the
volume-profile decile edges all coincide. -/
def vol_a : List ℚ := List.replicate 21 10

/-- Flat opens: every bar opens at 100. -/
def op_a : List ℚ := List.replicate 21 100

/-- Every bar also closes at 100 — all 21 bars are dojis. -/
def cl_doji : List ℚ := List.replicate 21 100

/-- 20 flat bars of volume 10: no institutional volume at all. -/
def vol_flat : List ℚ := List.replicate 20 10

def op_flat : List ℚ := List.replicate 20 100

/-- A valid 21-bar OHLCV frame with constant prices: `pd.qcut` raises on
it, after the first four derived columns are assigned in place. -/
def frame_c2 : Frame :=
  Frame.ofOHLCV op_a op_a op_a cl_doji vol_a (List.replicate 21 10)

/-- 21 strictly increasing prices 100..120: twenty-one distinct typical
prices, so the decile bin edges are distinct and `pd.qcut` succeeds. -/
def prices_c3 : List ℚ :=
  [100, 101, 102, 103, 104, 105, 106, 107, 108, 109, 110, 111, 112, 113, 114,
   115, 116, 117, 118, 119, 120]

def vol_c3 : List ℚ := List.replicate 21 10

/-- A valid 21-bar OHLCV frame (longer than the 20-bar window) that passes
the decile binning: the stealth-mode comparison of line 126 is reached and
raises on the label mismatch. -/
def frame_c3 : Frame :=
  Frame.ofOHLCV prices_c3 prices_c3 prices_c3 prices_c3 vol_c3 (List.replicate 21 10)

/-- 20 strictly increasing prices 100..119 (each bar
open=high=low=close=100+i): distinct typical prices, so `pd.qcut`
succeeds, and exactly 20 rows, so the stealth comparison of line 126 has
identically-labeled operands and does not raise. -/
def op_c6 : List ℚ :=
  [100, 101, 102, 103, 104, 105, 106, 107, 108, 109, 110, 111, 112, 113, 114,
   115, 116, 117, 118, 119]

/-- Closes for the C6 witness: the last (institutional) bar closes at 120,
above its 119 open — one bullish institutional bar. -/
def cl_c6w : List ℚ :=
  [100, 101, 102, 103, 104, 105, 106, 107, 108, 109, 110, 111, 112, 113, 114,
   115, 116, 117, 118, 120]

/-- 19 bars of volume 10 then one bar of volume 100: over the single full
rolling window (mean 29/2, sample variance 405) only the last bar is
institutional. -/
def vol_c6 : List ℚ := List.replicate 19 10 ++ [100]

/-- A valid 20-bar frame on which `_analyze_level1_footprint` completes:
distinct prices (qcut succeeds), 20 rows (line 126 compares
identically-labeled Series), and an institutional doji last bar. -/
def frame_c6 : Frame :=
  Frame.ofOHLCV op_c6 op_c6 op_c6 op_c6 vol_c6 (List.replicate 20 10)

/-- A model response with every required key present but position = 2,
outside [-1, 1]. -/
def raw_c7 : RawDecision :=
  ⟨some (.num 2), some (.num (1/2)), some (.num 105), some (.num 95), some (.str "ok")⟩

/-- A model response missing the take_profit key. -/
def raw_c7b : RawDecision :=
  ⟨some (.num (1/2)), some (.num (1/2)), none, some (.num 95), some (.str "ok")⟩

/-! ## Theorems -/

theorem allSome_map_some (l : List ℚ) : allSome (l.map some) = some l := by
  induction l with
  | nil => rfl
  | cons a as ih => simp [allSome, ih]

/-- Faithfulness of the square-root-free institutional test: for a positive
rolling mean `m` and nonnegative rolling variance `V`, `instCond m V v`
holds exactly when `v > m + (2 + √V/m)·√V`, which is order_flow.py's
`vol_mean + (2 + vol_std/vol_mean) * vol_std` threshold with
`vol_std = √V`. -/
theorem instCond_iff_sqrt (m V v : ℚ) (hm : 0 < m) (hV : 0 ≤ V) :
    instCond m V v = true ↔
      (m : ℝ) + (2 + Real.sqrt V / m) * Real.sqrt V < (v : ℝ) := by
  have hmR : (0 : ℝ) < (m : ℝ) := by exact_mod_cast hm
  have hVR : (0 : ℝ) ≤ (V : ℝ) := by exact_mod_cast hV
  have hmne : ((m : ℝ)) ≠ 0 := ne_of_gt hmR
  have hs : 0 ≤ Real.sqrt (V : ℝ) := Real.sqrt_nonneg _
  have hss : Real.sqrt (V : ℝ) * Real.sqrt (V : ℝ) = (V : ℝ) := Real.mul_self_sqrt hVR
  have hstep : (m : ℝ) + (2 + Real.sqrt V / m) * Real.sqrt V =
      m + 2 * Real.sqrt V + V / m := by
    field_simp
    linear_combination hss
  rw [instCond, decide_eq_true_eq, hstep]
  constructor
  · rintro ⟨-, h2, h3⟩
    have h2R : (0 : ℝ) < (m : ℝ) * (v - m) - V := by exact_mod_cast h2
    have h3R : 4 * (m : ℝ) ^ 2 * V < ((m : ℝ) * (v - m) - V) ^ 2 := by exact_mod_cast h3
    have key : 2 * (m : ℝ) * Real.sqrt V < (m : ℝ) * (v - m) - V := by
      have hsq : (2 * (m : ℝ) * Real.sqrt V) ^ 2 < ((m : ℝ) * (v - m) - V) ^ 2 := by
        have h4 : (2 * (m : ℝ) * Real.sqrt V) ^ 2 = 4 * (m : ℝ) ^ 2 * V := by
          have : (2 * (m : ℝ) * Real.sqrt V) ^ 2 =
              4 * (m : ℝ) ^ 2 * (Real.sqrt V * Real.sqrt V) := by ring
          rw [this, hss]
        rw [h4]; exact h3R
      exact lt_of_pow_lt_pow_left₀ 2 h2R.le hsq
    have hrw : (v : ℝ) - ((m : ℝ) + 2 * Real.sqrt V + V / m) =
        (((m : ℝ) * (v - m) - V) - 2 * m * Real.sqrt V) / m := by
      field_simp
      ring
    have hpos : (0 : ℝ) < (((m : ℝ) * (v - m) - V) - 2 * m * Real.sqrt V) / m :=
      div_pos (by linarith) hmR
    linarith [hrw ▸ hpos]
  · intro h
    have key : 2 * (m : ℝ) * Real.sqrt V < (m : ℝ) * (v - m) - V := by
      have h1 : ((m : ℝ) + 2 * Real.sqrt V + V / m) * m < v * m :=
        (mul_lt_mul_right hmR).mpr h
      have h2 : ((m : ℝ) + 2 * Real.sqrt V + V / m) * m =
          m ^ 2 + 2 * m * Real.sqrt V + V := by
        field_simp
        ring
      rw [h2] at h1
      nlinarith [h1]
    have h2ms : (0 : ℝ) ≤ 2 * (m : ℝ) * Real.sqrt V := by positivity
    have hcpos : (0 : ℝ) < (m : ℝ) * (v - m) - V := lt_of_le_of_lt h2ms key
    have hsq : (2 * (m : ℝ) * Real.sqrt V) ^ 2 < ((m : ℝ) * (v - m) - V) ^ 2 :=
      pow_lt_pow_left₀ key h2ms (two_ne_zero)
    have h4 : (2 * (m : ℝ) * Real.sqrt V) ^ 2 = 4 * (m : ℝ) ^ 2 * V := by
      have : (2 * (m : ℝ) * Real.sqrt V) ^ 2 =
          4 * (m : ℝ) ^ 2 * (Real.sqrt V * Real.sqrt V) := by ring
      rw [this, hss]
    rw [h4] at hsq
    refine ⟨hm, ?_, ?_⟩
    · exact_mod_cast hcpos
    · exact_mod_cast hsq

/-- C5: for every finite input position, every confidence value, every
regime confidence and every regime (known or unknown), the position
produced by `_adjust_position_for_regime` lies in [-1.0, 1.0]. -/
theorem c5_adjusted_position_bounded (position confidence : ℚ) (ri : RegimeInfo) :
    -1 ≤ adjust_position_for_regime position confidence ri ∧
      adjust_position_for_regime position confidence ri ≤ 1 := by
  unfold adjust_position_for_regime
  refine ⟨le_trans (by norm_num) (le_max_right _ _),
    max_le (le_trans (min_le_right _ _) (by norm_num)) (by norm_num)⟩

/-- C10: a bar that closes exactly at its open takes the `np.where` else
branch, so its weighted delta is the full volume with bearish sign,
`-volume` (the move term |Δ/open| is zero). -/
theorem c10_doji_weighted_delta (op cl vol : ℚ) (h : cl = op) :
    weighted_delta op cl vol = -vol := by
  subst h
  unfold weighted_delta
  rw [if_neg (lt_irrefl _)]
  simp

theorem c10_doji_weighted_delta_witness :
    (100 : ℚ) = 100 ∧ weighted_delta 100 100 7 = -7 :=
  ⟨rfl, c10_doji_weighted_delta 100 100 7 rfl⟩

/-- C8: when the summed volumes of institutional bullish and bearish bars
are equal (including both zero), the bias is reported as "bearish";
"bullish" is reported exactly on strict inequality. -/
theorem c8_equal_inst_volume_bearish (op cl vol : List ℚ) :
    (bullish_volume op cl vol = bearish_volume op cl vol →
      institutional_bias op cl vol = "bearish") ∧
    (institutional_bias op cl vol = "bullish" ↔
      bearish_volume op cl vol < bullish_volume op cl vol) := by
  constructor
  · intro h
    unfold institutional_bias
    rw [h, if_neg (lt_irrefl _)]
  · unfold institutional_bias
    split_ifs with h
    · simp [h]
    · simp [h]

/-- C7 counterexample: outside dry-run mode, a response with position = 2
(outside [-1,1]) is rejected by the validation chain, but the broad
exception handler swallows the raise: the caller receives the defaulted
neutral decision (position 0, confidence 0), not a failure. -/
theorem c7_validation_error_not_surfaced :
    validate_decision raw_c7 100 = .error "Position value out of range" ∧
    provider_get_trading_decision false raw_c7 100 =
      errorDecision "Position value out of range" := by
  constructor
  · norm_num [validate_decision, raw_c7, JVal.asFloat]
  · norm_num [provider_get_trading_decision, validate_decision, raw_c7, JVal.asFloat]

/-- C7 amended: outside dry-run mode every decode/validation failure is
caught internally and mapped to the neutral decision (position 0,
confidence 0, no stops) whose reasoning string carries the error text; no
failure propagates to the caller. -/
theorem c7_error_mapped_to_neutral (raw : RawDecision) (current_price : ℚ)
    (e : String) (h : validate_decision raw current_price = .error e) :
    provider_get_trading_decision false raw current_price = errorDecision e := by
  simp [provider_get_trading_decision, h]

theorem c7_error_mapped_to_neutral_witness :
    validate_decision raw_c7b 100 = .error "Missing required keys in decision" ∧
    provider_get_trading_decision false raw_c7b 100 =
      errorDecision "Missing required keys in decision" :=
  ⟨by simp [validate_decision, raw_c7b],
    c7_error_mapped_to_neutral raw_c7b 100 _ (by simp [validate_decision, raw_c7b])⟩

theorem adjust_for_regime_c1_eval :
    adjust_for_regime d_c1 ri_c1 = ⟨some 0.8, some 0.868, some 100, some 110, some 95⟩ := by
  have hA : (MarketRegime.trending_up = MarketRegime.ranging_low_vol) = False := by simp
  have hB : (MarketRegime.trending_up = MarketRegime.ranging_high_vol) = False := by simp
  norm_num [adjust_for_regime, d_c1, ri_c1, hA, hB]

/-- C1 counterexample: in the spec §8 trending scenario the regime stage
does raise confidence to 0.868, but the position-rescaling stage multiplies
by the regime confidence (0.8) as well, yielding 0.55552 — not within 0.1
of the claimed ≈0.694. -/
theorem c1_position_not_0694 :
    adjust_position_for_regime ((adjust_for_regime d_c1 ri_c1).position.getD 0)
        ((adjust_for_regime d_c1 ri_c1).confidence.getD 0) ri_c1 = 0.55552 ∧
    ¬(|adjust_position_for_regime ((adjust_for_regime d_c1 ri_c1).position.getD 0)
        ((adjust_for_regime d_c1 ri_c1).confidence.getD 0) ri_c1 - 0.694| < 1/10) := by
  rw [adjust_for_regime_c1_eval]
  norm_num [adjust_position_for_regime, regime_factors, ri_c1, abs_of_nonneg, abs_of_nonpos]

/-- C1 amended: the regime stage raises confidence to
min(1.0, 0.7·(1+0.8·0.3)) = 0.868, and the position-rescaling stage yields
1.0 (trending factor) × 0.8 (regime confidence) × 0.8 (position) × 0.868
(confidence) = 0.55552. -/
theorem c1_scenario_amended :
    (adjust_for_regime d_c1 ri_c1).confidence = some 0.868 ∧
    adjust_position_for_regime ((adjust_for_regime d_c1 ri_c1).position.getD 0)
        ((adjust_for_regime d_c1 ri_c1).confidence.getD 0) ri_c1 = 0.55552 := by
  rw [adjust_for_regime_c1_eval]
  norm_num [adjust_position_for_regime, regime_factors, ri_c1]

/-- C4 counterexample: with the default configuration (minimum risk/reward
1.5), a decision whose risk/reward is exactly 1.5 is not rejected: the gate
is strict (`<`), so the sizer returns 0.3, not 0.0. -/
theorem c4_rr_equal_min_nonzero_size :
    risk_reward_of d_c4 = defaultBotConfig.min_risk_reward ∧
    calculate_position_size defaultBotConfig d_c4 = 3/10 ∧
    calculate_position_size defaultBotConfig d_c4 ≠ 0 := by
  refine ⟨by norm_num [risk_reward_of, d_c4, defaultBotConfig], ?_, ?_⟩ <;>
    norm_num [calculate_position_size, d_c4, defaultBotConfig, round2, abs_of_nonneg]

/-- C4 amended: the sizer returns exactly 0.0 for every decision with
|position| < 0.1 (regardless of confidence), and exactly 0.0 whenever the
computed risk/reward is strictly below the configured minimum; at exactly
the minimum it proceeds to the scaling step. -/
theorem c4_deadzone_and_strict_rr_zero (cfg : BotConfig) (d : BotDecision) :
    (|d.position.getD 0| < 0.1 → calculate_position_size cfg d = 0) ∧
    (risk_reward_of d < cfg.min_risk_reward → calculate_position_size cfg d = 0) := by
  constructor
  · intro h
    unfold calculate_position_size
    rw [if_pos (Or.inl h)]
  · intro h
    simp only [calculate_position_size, risk_reward_of] at h ⊢
    by_cases hp : 0 < d.position.getD 0
    · simp only [if_pos hp] at h ⊢
      split_ifs <;> first | rfl | exact absurd h (by assumption)
    · simp only [if_neg hp] at h ⊢
      split_ifs <;> first | rfl | exact absurd h (by assumption)

theorem c4_deadzone_and_strict_rr_zero_witness :
    (|d_c4a.position.getD 0| < 0.1 ∧ calculate_position_size defaultBotConfig d_c4a = 0) ∧
    (risk_reward_of d_c4b < defaultBotConfig.min_risk_reward ∧
      calculate_position_size defaultBotConfig d_c4b = 0) :=
  ⟨⟨by norm_num [d_c4a, abs_of_nonneg], (c4_deadzone_and_strict_rr_zero defaultBotConfig d_c4a).1
      (by norm_num [d_c4a, abs_of_nonneg])⟩,
    ⟨by norm_num [risk_reward_of, d_c4b, defaultBotConfig],
      (c4_deadzone_and_strict_rr_zero defaultBotConfig d_c4b).2
        (by norm_num [risk_reward_of, d_c4b, defaultBotConfig])⟩⟩

/-- C9: the sizer returns exactly 0.0 whenever current_price, take_profit
or stop_loss is zero or absent (absent keys default to 0, and the
`all([...])` truthiness gate rejects any zero), independently of the other
gates. -/
theorem c9_zero_or_absent_levels_zero_size (cfg : BotConfig) (d : BotDecision)
    (h : d.current_price = none ∨ d.current_price = some 0 ∨
      d.take_profit = none ∨ d.take_profit = some 0 ∨
      d.stop_loss = none ∨ d.stop_loss = some 0) :
    calculate_position_size cfg d = 0 := by
  have hz : d.current_price.getD 0 = 0 ∨ d.take_profit.getD 0 = 0 ∨
      d.stop_loss.getD 0 = 0 := by
    rcases h with h | h | h | h | h | h <;> simp [h]
  simp only [calculate_position_size]
  split_ifs with h1 h2 <;> first | rfl | exact absurd hz h2

theorem c9_zero_or_absent_levels_zero_size_witness :
    (d_c9.take_profit = some 0 ∧ |d_c9.position.getD 0| ≥ 0.1 ∧
      d_c9.confidence.getD 0 ≥ defaultBotConfig.min_confidence) ∧
    calculate_position_size defaultBotConfig d_c9 = 0 :=
  ⟨⟨rfl, by norm_num [d_c9, abs_of_nonneg], by norm_num [d_c9, defaultBotConfig]⟩,
    c9_zero_or_absent_levels_zero_size defaultBotConfig d_c9
      (Or.inr (Or.inr (Or.inr (Or.inl rfl))))⟩

theorem inst_vol_c6_eval :
    institutional_volume
      [10, 10, 10, 10, 10, 10, 10, 10, 10, 10, 10, 10, 10, 10, 10, 10, 10, 10, 10,
        (100 : ℚ)] =
    [false, false, false, false, false, false, false, false, false, false, false, false,
      false, false, false, false, false, false, false, true] := by
  norm_num [institutional_volume, instFlagsAux, instFlag, rollingWindow,
    instCond, meanQ, sampleVar, List.take_succ_cons, List.take_zero,
    List.drop_succ_cons, List.drop_zero, List.sum_cons, List.sum_nil, List.map_cons,
    List.map_nil, List.length_cons, List.length_nil, List.getD_cons_zero,
    List.getD_cons_succ]

theorem inst_vol_flat_eval :
    institutional_volume
      [10, 10, 10, 10, 10, 10, 10, 10, 10, 10, 10, 10, 10, 10, 10, 10, 10, 10, 10,
        (10 : ℚ)] =
    [false, false, false, false, false, false, false, false, false, false, false, false,
      false, false, false, false, false, false, false, false] := by
  norm_num [institutional_volume, instFlagsAux, instFlag, rollingWindow,
    instCond, meanQ, sampleVar, List.take_succ_cons, List.take_zero,
    List.drop_succ_cons, List.drop_zero, List.sum_cons, List.sum_nil, List.map_cons,
    List.map_nil, List.length_cons, List.length_nil, List.getD_cons_zero,
    List.getD_cons_succ]

theorem bull_c6_eval : bullish_volume op_c6 op_c6 vol_c6 = 0 := by
  simp only [bullish_volume, flowRecent, op_c6, vol_c6, List.replicate,
    List.cons_append, List.nil_append]
  rw [inst_vol_c6_eval]
  norm_num [flowRows, recent20, List.filter_cons, List.filter_nil, List.map_cons,
    List.map_nil, List.sum_cons, List.sum_nil, List.length_cons, List.length_nil,
    List.drop_succ_cons, List.drop_zero]

theorem bear_c6_eval : bearish_volume op_c6 op_c6 vol_c6 = 0 := by
  simp only [bearish_volume, flowRecent, op_c6, vol_c6, List.replicate,
    List.cons_append, List.nil_append]
  rw [inst_vol_c6_eval]
  norm_num [flowRows, recent20, List.filter_cons, List.filter_nil, List.map_cons,
    List.map_nil, List.sum_cons, List.sum_nil, List.length_cons, List.length_nil,
    List.drop_succ_cons, List.drop_zero]

theorem bull_c6w_eval : bullish_volume op_c6 cl_c6w vol_c6 = 100 := by
  simp only [bullish_volume, flowRecent, op_c6, cl_c6w, vol_c6, List.replicate,
    List.cons_append, List.nil_append]
  rw [inst_vol_c6_eval]
  norm_num [flowRows, recent20, List.filter_cons, List.filter_nil, List.map_cons,
    List.map_nil, List.sum_cons, List.sum_nil, List.length_cons, List.length_nil,
    List.drop_succ_cons, List.drop_zero]

theorem bear_c6w_eval : bearish_volume op_c6 cl_c6w vol_c6 = 0 := by
  simp only [bearish_volume, flowRecent, op_c6, cl_c6w, vol_c6, List.replicate,
    List.cons_append, List.nil_append]
  rw [inst_vol_c6_eval]
  norm_num [flowRows, recent20, List.filter_cons, List.filter_nil, List.map_cons,
    List.map_nil, List.sum_cons, List.sum_nil, List.length_cons, List.length_nil,
    List.drop_succ_cons, List.drop_zero]

theorem bull_flat_eval : bullish_volume op_flat op_flat vol_flat = 0 := by
  simp only [bullish_volume, flowRecent, op_flat, vol_flat, List.replicate,
    List.cons_append, List.nil_append]
  rw [inst_vol_flat_eval]
  norm_num [flowRows, recent20, List.filter_cons, List.filter_nil, List.map_cons,
    List.map_nil, List.sum_cons, List.sum_nil, List.length_cons, List.length_nil,
    List.drop_succ_cons, List.drop_zero]

theorem bear_flat_eval : bearish_volume op_flat op_flat vol_flat = 0 := by
  simp only [bearish_volume, flowRecent, op_flat, vol_flat, List.replicate,
    List.cons_append, List.nil_append]
  rw [inst_vol_flat_eval]
  norm_num [flowRows, recent20, List.filter_cons, List.filter_nil, List.map_cons,
    List.map_nil, List.sum_cons, List.sum_nil, List.length_cons, List.length_nil,
    List.drop_succ_cons, List.drop_zero]

theorem c8_equal_inst_volume_bearish_witness :
    bullish_volume op_flat op_flat vol_flat = bearish_volume op_flat op_flat vol_flat ∧
    institutional_bias op_flat op_flat vol_flat = "bearish" :=
  ⟨by rw [bull_flat_eval, bear_flat_eval],
    (c8_equal_inst_volume_bearish op_flat op_flat vol_flat).1
      (by rw [bull_flat_eval, bear_flat_eval])⟩

theorem flowRows_volume_mem :
    ∀ (op cl vol : List ℚ) (b : List Bool) (r : FlowRow),
      r ∈ flowRows op cl vol b → r.volume ∈ vol := by
  intro op
  induction op with
  | nil => intro cl vol b r h; simp [flowRows] at h
  | cons o os ih =>
    intro cl vol b r h
    cases cl with
    | nil => simp [flowRows] at h
    | cons c cs =>
      cases vol with
      | nil => simp [flowRows] at h
      | cons v vs =>
        cases b with
        | nil => simp [flowRows] at h
        | cons b1 bs =>
          rw [flowRows] at h
          rcases List.mem_cons.mp h with h1 | h1
          · subst h1; exact List.mem_cons_self _ _
          · exact List.mem_cons_of_mem _ (ih cs vs bs r h1)

theorem flow_volume_sum_nonneg (p : FlowRow → Bool) (op cl vol : List ℚ)
    (hvol : ∀ x ∈ vol, 0 ≤ x) :
    0 ≤ (((flowRecent op cl vol).filter p).map FlowRow.volume).sum := by
  apply List.sum_nonneg
  intro x hx
  rcases List.mem_map.mp hx with ⟨r, hr, rfl⟩
  have hr1 : r ∈ recent20 (flowRows op cl vol (institutional_volume vol)) := by
    simpa [flowRecent] using List.mem_of_mem_filter hr
  have hr2 : r ∈ flowRows op cl vol (institutional_volume vol) :=
    List.drop_subset _ _ hr1
  exact hvol _ (flowRows_volume_mem op cl vol _ r hr2)

/-- C6 amended: when the institutional bullish+bearish volume sum is
positive the bias strength is defined and lies in [0,1]; when the sum is
zero — no institutional bars, or only doji institutional bars — the
division is numpy's 0/0 and the strength is NaN (undefined), with no
exception raised by the expression.  The dict carrying it is only built on
runs that complete: frames of at most window size whose decile binning
succeeds (longer frames raise earlier, see the stealth comparison). -/
theorem c6_bias_strength_amended (op cl vol : List ℚ)
    (hvol : ∀ x ∈ vol, 0 ≤ x) :
    (0 < bullish_volume op cl vol + bearish_volume op cl vol →
      ∃ q, bias_strength op cl vol = some q ∧ 0 ≤ q ∧ q ≤ 1) ∧
    (bullish_volume op cl vol + bearish_volume op cl vol = 0 →
      bias_strength op cl vol = none) := by
  have hb : 0 ≤ bullish_volume op cl vol :=
    flow_volume_sum_nonneg (fun r => r.inst && decide (r.open_ < r.close)) op cl vol hvol
  have hs : 0 ≤ bearish_volume op cl vol :=
    flow_volume_sum_nonneg (fun r => r.inst && decide (r.close < r.open_)) op cl vol hvol
  constructor
  · intro hpos
    refine ⟨|bullish_volume op cl vol - bearish_volume op cl vol| /
        (bullish_volume op cl vol + bearish_volume op cl vol), ?_, ?_, ?_⟩
    · simp only [bias_strength]
      rw [if_neg (ne_of_gt hpos)]
    · exact div_nonneg (abs_nonneg _) (le_of_lt hpos)
    · rw [div_le_one hpos]
      exact abs_le.mpr ⟨by linarith, by linarith⟩
  · intro h0
    simp only [bias_strength]
    rw [if_pos h0]

theorem c6_bias_strength_amended_witness :
    (∀ x ∈ vol_c6, 0 ≤ x) ∧
    0 < bullish_volume op_c6 cl_c6w vol_c6 + bearish_volume op_c6 cl_c6w vol_c6 ∧
    ∃ q, bias_strength op_c6 cl_c6w vol_c6 = some q ∧ 0 ≤ q ∧ q ≤ 1 := by
  have hv : ∀ x ∈ vol_c6, 0 ≤ x := by
    intro x hx
    simp only [vol_c6, List.mem_append, List.mem_replicate, List.mem_singleton] at hx
    rcases hx with ⟨-, rfl⟩ | rfl <;> norm_num
  have hpos :
      0 < bullish_volume op_c6 cl_c6w vol_c6 + bearish_volume op_c6 cl_c6w vol_c6 := by
    rw [bull_c6w_eval, bear_c6w_eval]; norm_num
  exact ⟨hv, hpos, (c6_bias_strength_amended op_c6 cl_c6w vol_c6 hv).1 hpos⟩

theorem find_name_isSome_iff (cols : List (String × Col)) (n : String) :
    ((cols.find? (fun p => p.1 == n)).isSome = true) ↔ n ∈ cols.map Prod.fst := by
  induction cols with
  | nil => simp
  | cons p ps ih =>
    by_cases h : p.1 = n
    · simp [List.find?_cons, h]
    · simp [List.find?_cons, beq_eq_false_iff_ne.mpr h, ih, Ne.symm h]

theorem names_set_ite (f : Frame) (n : String) (v : Col) :
    (f.set n v).names = if n ∈ f.names then f.names else f.names ++ [n] := by
  obtain ⟨cols, idx⟩ := f
  by_cases h : n ∈ Frame.names ⟨cols, idx⟩
  · rw [if_pos h]
    have hs : ((cols.find? (fun p => p.1 == n)).isSome = true) :=
      (find_name_isSome_iff cols n).mpr h
    simp only [Frame.set, Frame.names, if_pos hs, List.map_map]
    refine List.map_congr_left ?_
    intro p hp
    by_cases hpq : p.1 = n
    · simp [Function.comp, hpq]
    · simp [Function.comp, beq_eq_false_iff_ne.mpr hpq]
  · rw [if_neg h]
    have hs : ¬((cols.find? (fun p => p.1 == n)).isSome = true) := by
      rw [find_name_isSome_iff]; exact h
    simp only [Frame.set, Frame.names, if_neg hs, List.map_append, List.map_cons,
      List.map_nil]

theorem find_replace_ne (cols : List (String × Col)) (n m : String) (v : Col)
    (h : n ≠ m) :
    (cols.map fun p => if p.1 == m then (m, v) else p).find? (fun p => p.1 == n) =
      cols.find? (fun p => p.1 == n) := by
  induction cols with
  | nil => rfl
  | cons p ps ih =>
    by_cases hpm : p.1 = m
    · simpa [List.find?_cons, hpm, beq_eq_false_iff_ne.mpr (Ne.symm h),
        -List.find?_map] using ih
    · cases hb : (p.1 == n : Bool)
      · simpa [List.find?_cons, hpm, beq_eq_false_iff_ne.mpr hpm, hb,
          -List.find?_map] using ih
      · simp [List.find?_cons, hpm, beq_eq_false_iff_ne.mpr hpm, hb, -List.find?_map]

theorem find_append_ne (cols : List (String × Col)) (n m : String) (v : Col)
    (h : n ≠ m) :
    (cols ++ [(m, v)]).find? (fun p => p.1 == n) = cols.find? (fun p => p.1 == n) := by
  induction cols with
  | nil => simp [List.find?_cons, beq_eq_false_iff_ne.mpr (Ne.symm h)]
  | cons p ps ih => simp [List.find?_cons, ih]

theorem lookup_set_ne (f : Frame) (n m : String) (v : Col) (h : n ≠ m) :
    (f.set m v).lookup n = f.lookup n := by
  obtain ⟨cols, idx⟩ := f
  unfold Frame.set
  split_ifs with hs
  · unfold Frame.lookup
    simp only [find_replace_ne cols n m v h]
  · unfold Frame.lookup
    simp only [find_append_ne cols n m v h]

theorem idx_set (f : Frame) (n : String) (v : Col) :
    (f.set n v).idx_hours = f.idx_hours := by
  unfold Frame.set
  split_ifs <;> rfl

theorem getColQ_ofOHLCV_open (op hi lo cl vol : List ℚ) (hours : List ℕ) :
    (Frame.ofOHLCV op hi lo cl vol hours).getColQ "open" = some op := by
  simp [Frame.getColQ, Frame.lookup, Frame.ofOHLCV, List.find?_cons, allSome_map_some]

theorem getColQ_ofOHLCV_high (op hi lo cl vol : List ℚ) (hours : List ℕ) :
    (Frame.ofOHLCV op hi lo cl vol hours).getColQ "high" = some hi := by
  simp [Frame.getColQ, Frame.lookup, Frame.ofOHLCV, List.find?_cons, allSome_map_some]

theorem getColQ_ofOHLCV_low (op hi lo cl vol : List ℚ) (hours : List ℕ) :
    (Frame.ofOHLCV op hi lo cl vol hours).getColQ "low" = some lo := by
  simp [Frame.getColQ, Frame.lookup, Frame.ofOHLCV, List.find?_cons, allSome_map_some]

theorem getColQ_ofOHLCV_close (op hi lo cl vol : List ℚ) (hours : List ℕ) :
    (Frame.ofOHLCV op hi lo cl vol hours).getColQ "close" = some cl := by
  simp [Frame.getColQ, Frame.lookup, Frame.ofOHLCV, List.find?_cons, allSome_map_some]

theorem getColQ_ofOHLCV_volume (op hi lo cl vol : List ℚ) (hours : List ℕ) :
    (Frame.ofOHLCV op hi lo cl vol hours).getColQ "volume" = some vol := by
  simp [Frame.getColQ, Frame.lookup, Frame.ofOHLCV, List.find?_cons, allSome_map_some]

theorem analyze_columns_a_names (f : Frame) (hi lo cl vol : List ℚ)
    (h : f.names = ["open", "high", "low", "close", "volume"]) :
    (analyze_columns_a f hi lo cl vol).names =
      ["open", "high", "low", "close", "volume"] ++ partialDerivedNames := by
  simp only [analyze_columns_a]
  simp [names_set_ite, h, partialDerivedNames]

theorem analyze_columns_b_names (f : Frame) (op hi lo cl vol : List ℚ)
    (h : f.names = ["open", "high", "low", "close", "volume"] ++ partialDerivedNames) :
    (analyze_columns_b f op hi lo cl vol).names =
      ["open", "high", "low", "close", "volume"] ++ derivedNames := by
  simp only [analyze_columns_b]
  simp [names_set_ite, h, partialDerivedNames, derivedNames]

theorem analyze_columns_a_lookup_raw (f : Frame) (hi lo cl vol : List ℚ) (n : String)
    (h : ∀ m ∈ derivedNames, n ≠ m) :
    (analyze_columns_a f hi lo cl vol).lookup n = f.lookup n := by
  simp only [analyze_columns_a]
  rw [lookup_set_ne _ n "hour" _ (h _ (by simp [derivedNames])),
    lookup_set_ne _ n "institutional_volume" _ (h _ (by simp [derivedNames])),
    lookup_set_ne _ n "money_flow" _ (h _ (by simp [derivedNames])),
    lookup_set_ne _ n "typical_price" _ (h _ (by simp [derivedNames]))]

theorem analyze_columns_b_lookup_raw (f : Frame) (op hi lo cl vol : List ℚ) (n : String)
    (h : ∀ m ∈ derivedNames, n ≠ m) :
    (analyze_columns_b f op hi lo cl vol).lookup n = f.lookup n := by
  simp only [analyze_columns_b]
  rw [lookup_set_ne _ n "accumulation" _ (h _ (by simp [derivedNames])),
    lookup_set_ne _ n "distribution" _ (h _ (by simp [derivedNames])),
    lookup_set_ne _ n "stopping_volume" _ (h _ (by simp [derivedNames])),
    lookup_set_ne _ n "absorption" _ (h _ (by simp [derivedNames])),
    lookup_set_ne _ n "lower_wick" _ (h _ (by simp [derivedNames])),
    lookup_set_ne _ n "upper_wick" _ (h _ (by simp [derivedNames])),
    lookup_set_ne _ n "body" _ (h _ (by simp [derivedNames])),
    lookup_set_ne _ n "spread" _ (h _ (by simp [derivedNames])),
    lookup_set_ne _ n "cum_delta" _ (h _ (by simp [derivedNames])),
    lookup_set_ne _ n "weighted_delta" _ (h _ (by simp [derivedNames]))]

theorem analyze_columns_a_idx (f : Frame) (hi lo cl vol : List ℚ) :
    (analyze_columns_a f hi lo cl vol).idx_hours = f.idx_hours := by
  simp only [analyze_columns_a, idx_set]

theorem analyze_columns_b_idx (f : Frame) (op hi lo cl vol : List ℚ) :
    (analyze_columns_b f op hi lo cl vol).idx_hours = f.idx_hours := by
  simp only [analyze_columns_b, idx_set]

theorem qcut_c2_fails : qcut_fails (typical_price_of op_a op_a cl_doji) = true := by
  norm_num [qcut_fails, typical_price_of, zipWith3, sortQ, insertSorted, decileEdge,
    hasDupAdjacent, op_a, cl_doji, List.replicate, List.map_cons, List.map_nil,
    List.length_cons, List.length_nil, List.getD_cons_zero, List.getD_cons_succ,
    List.getD_nil]

theorem qcut_c3_ok : qcut_fails (typical_price_of prices_c3 prices_c3 prices_c3) =
    false := by
  norm_num [qcut_fails, typical_price_of, zipWith3, sortQ, insertSorted, decileEdge,
    hasDupAdjacent, prices_c3, List.map_cons, List.map_nil,
    List.length_cons, List.length_nil, List.getD_cons_zero, List.getD_cons_succ,
    List.getD_nil]

theorem qcut_c6_ok : qcut_fails (typical_price_of op_c6 op_c6 op_c6) = false := by
  norm_num [qcut_fails, typical_price_of, zipWith3, sortQ, insertSorted, decileEdge,
    hasDupAdjacent, op_c6, List.map_cons, List.map_nil,
    List.length_cons, List.length_nil, List.getD_cons_zero, List.getD_cons_succ,
    List.getD_nil]

theorem elevated_c6_count : (elevated_recent vol_c6).count true = 1 := by
  norm_num [elevated_recent, vol_c6, recent20, rollingApply, rollingApplyAux,
    rollingWindow, meanQ, List.replicate, List.cons_append, List.nil_append,
    List.zipWith, List.count_cons, List.count_nil, List.take_succ_cons,
    List.take_zero, List.drop_succ_cons, List.drop_zero, List.sum_cons,
    List.sum_nil, List.length_cons, List.length_nil]

/-- C2 counterexample: analyzing the valid 21-bar constant-price frame
changes the caller's column set in place — the decile binning raises
ValueError, but by then the first four derived columns are already
assigned, so the five raw columns have become nine. -/
theorem c2_frame_columns_mutated :
    ¬(((analyze_level1_footprint frame_c2).1).names = frame_c2.names) := by
  have hnames : frame_c2.names = ["open", "high", "low", "close", "volume"] := by
    simp [frame_c2, Frame.ofOHLCV, Frame.names]
  have h1 : ((analyze_level1_footprint frame_c2).1).names =
      ["open", "high", "low", "close", "volume"] ++ partialDerivedNames := by
    simp only [frame_c2, analyze_level1_footprint, getColQ_ofOHLCV_open,
      getColQ_ofOHLCV_high, getColQ_ofOHLCV_low, getColQ_ofOHLCV_close,
      getColQ_ofOHLCV_volume, qcut_c2_fails, eq_self_iff_true, if_true]
    exact analyze_columns_a_names _ _ _ _ _ (by simp [Frame.ofOHLCV, Frame.names])
  rw [h1, hnames]
  decide

/-- C2 amended: the raw OHLCV columns' values (and the index) are unchanged
by the analysis, but the derived columns are assigned in place on the
caller's frame — all 14 when the decile binning of line 60 succeeds, and
still the first four (typical_price, money_flow, institutional_volume,
hour) when it raises — so the column set differs after every analysis
call; the input frame is mutated, not copied. -/
theorem c2_raw_preserved_columns_appended (op hi lo cl vol : List ℚ) (hours : List ℕ) :
    ((analyze_level1_footprint (Frame.ofOHLCV op hi lo cl vol hours)).1).names =
      (Frame.ofOHLCV op hi lo cl vol hours).names ++
        (if qcut_fails (typical_price_of hi lo cl) = true then partialDerivedNames
         else derivedNames) ∧
    ((analyze_level1_footprint (Frame.ofOHLCV op hi lo cl vol hours)).1).lookup "open" =
      (Frame.ofOHLCV op hi lo cl vol hours).lookup "open" ∧
    ((analyze_level1_footprint (Frame.ofOHLCV op hi lo cl vol hours)).1).lookup "high" =
      (Frame.ofOHLCV op hi lo cl vol hours).lookup "high" ∧
    ((analyze_level1_footprint (Frame.ofOHLCV op hi lo cl vol hours)).1).lookup "low" =
      (Frame.ofOHLCV op hi lo cl vol hours).lookup "low" ∧
    ((analyze_level1_footprint (Frame.ofOHLCV op hi lo cl vol hours)).1).lookup "close" =
      (Frame.ofOHLCV op hi lo cl vol hours).lookup "close" ∧
    ((analyze_level1_footprint (Frame.ofOHLCV op hi lo cl vol hours)).1).lookup "volume" =
      (Frame.ofOHLCV op hi lo cl vol hours).lookup "volume" ∧
    ((analyze_level1_footprint (Frame.ofOHLCV op hi lo cl vol hours)).1).idx_hours =
      (Frame.ofOHLCV op hi lo cl vol hours).idx_hours := by
  have hnames : (Frame.ofOHLCV op hi lo cl vol hours).names =
      ["open", "high", "low", "close", "volume"] := by
    simp [Frame.ofOHLCV, Frame.names]
  simp only [analyze_level1_footprint, getColQ_ofOHLCV_open, getColQ_ofOHLCV_high,
    getColQ_ofOHLCV_low, getColQ_ofOHLCV_close, getColQ_ofOHLCV_volume]
  by_cases hq : qcut_fails (typical_price_of hi lo cl) = true
  · simp only [hq, eq_self_iff_true, if_true]
    refine ⟨?_, ?_, ?_, ?_, ?_, ?_, ?_⟩
    · rw [analyze_columns_a_names _ _ _ _ _ hnames, hnames]
    · exact analyze_columns_a_lookup_raw _ _ _ _ _ "open" (by decide)
    · exact analyze_columns_a_lookup_raw _ _ _ _ _ "high" (by decide)
    · exact analyze_columns_a_lookup_raw _ _ _ _ _ "low" (by decide)
    · exact analyze_columns_a_lookup_raw _ _ _ _ _ "close" (by decide)
    · exact analyze_columns_a_lookup_raw _ _ _ _ _ "volume" (by decide)
    · exact analyze_columns_a_idx _ _ _ _ _
  · have hq' : qcut_fails (typical_price_of hi lo cl) = false := by
      revert hq; cases qcut_fails (typical_price_of hi lo cl) <;> simp
    simp only [hq', Bool.false_eq_true, if_false]
    refine ⟨?_, ?_, ?_, ?_, ?_, ?_, ?_⟩
    · rw [analyze_columns_b_names _ _ _ _ _ _
        (analyze_columns_a_names _ _ _ _ _ hnames), hnames]
    · exact (analyze_columns_b_lookup_raw _ _ _ _ _ _ "open" (by decide)).trans
        (analyze_columns_a_lookup_raw _ _ _ _ _ "open" (by decide))
    · exact (analyze_columns_b_lookup_raw _ _ _ _ _ _ "high" (by decide)).trans
        (analyze_columns_a_lookup_raw _ _ _ _ _ "high" (by decide))
    · exact (analyze_columns_b_lookup_raw _ _ _ _ _ _ "low" (by decide)).trans
        (analyze_columns_a_lookup_raw _ _ _ _ _ "low" (by decide))
    · exact (analyze_columns_b_lookup_raw _ _ _ _ _ _ "close" (by decide)).trans
        (analyze_columns_a_lookup_raw _ _ _ _ _ "close" (by decide))
    · exact (analyze_columns_b_lookup_raw _ _ _ _ _ _ "volume" (by decide)).trans
        (analyze_columns_a_lookup_raw _ _ _ _ _ "volume" (by decide))
    · exact (analyze_columns_b_idx _ _ _ _ _ _).trans (analyze_columns_a_idx _ _ _ _ _)

/-- C6 counterexample: on the valid 20-bar frame `frame_c6` — distinct
prices, so the decile binning succeeds, and exactly window length, so the
line-126 comparison has identically-labeled operands and does not raise —
the analysis completes and the last bar is institutional, yet that bar is
a doji (open = close), so the institutional bullish and bearish volume
sums are both 0 and `bias_strength` is numpy's 0/0 = NaN, not a value in
[0, 1]. -/
theorem c6_inst_doji_bias_nan :
    ((analyze_level1_footprint frame_c6).2.map Verdict.bias_strength) = some none ∧
    ((flowRecent op_c6 op_c6 vol_c6).any fun r => r.inst) = true := by
  constructor
  · have hlen : ¬((recent20 vol_c6).length ≠ vol_c6.length) := by
      norm_num [recent20, vol_c6, List.length_drop, List.length_replicate,
        List.length_append, List.length_cons, List.length_nil]
    have hbias : bias_strength op_c6 op_c6 vol_c6 = none := by
      unfold bias_strength
      rw [bull_c6_eval, bear_c6_eval]
      norm_num
    simp only [frame_c6, analyze_level1_footprint, getColQ_ofOHLCV_open,
      getColQ_ofOHLCV_high, getColQ_ofOHLCV_low, getColQ_ofOHLCV_close,
      getColQ_ofOHLCV_volume, qcut_c6_ok, Bool.false_eq_true, if_false,
      analyze_verdict, if_neg hlen, elevated_c6_count]
    norm_num [Option.map_some', hbias]
  · simp only [flowRecent, op_c6, vol_c6, List.replicate, List.cons_append,
      List.nil_append]
    rw [inst_vol_c6_eval]
    norm_num [flowRows, recent20, List.any_cons, List.any_nil, List.length_cons,
      List.length_nil, List.drop_succ_cons, List.drop_zero]

/-- C3: on a valid series longer than the 20-bar window — here 21 bars of
strictly increasing prices, so the decile binning succeeds — execution
reaches the stealth-mode condition of line 126, where
`recent['volume'] > vol_mean * 1.2` compares a 20-label slice against the
full-length rolling mean; pandas (>= 2.2, as pinned) refuses to compare
differently-labeled Series, so the analysis raises ValueError and never
builds its summary dict.  The `recent['std']` read of a column no code
ever creates sits behind that raise (and, on frames of at most 20 rows,
behind the `and` short-circuit, the elevated count being at most 1), so
the claimed close-price displacement bound is never computed. -/
theorem c3_stealth_comparison_raises :
    qcut_fails (typical_price_of prices_c3 prices_c3 prices_c3) = false ∧
    20 < vol_c3.length ∧
    (analyze_level1_footprint frame_c3).2 = none := by
  have hlen : (recent20 vol_c3).length ≠ vol_c3.length := by
    norm_num [recent20, vol_c3, List.length_drop, List.length_replicate]
  refine ⟨qcut_c3_ok, ?_, ?_⟩
  · norm_num [vol_c3, List.length_replicate]
  · simp only [frame_c3, analyze_level1_footprint, getColQ_ofOHLCV_open,
      getColQ_ofOHLCV_high, getColQ_ofOHLCV_low, getColQ_ofOHLCV_close,
      getColQ_ofOHLCV_volume, qcut_c3_ok, Bool.false_eq_true, if_false,
      analyze_verdict, if_pos hlen, Option.map_none']

end LTE
